import Mathlib

/-!
Verification development for the Telegram broadcast scheduler repository
(`messege_scheduler.py`, `anti_ban_system.py`).

Shallow embedding conventions:
* Wall-clock instants (`datetime.now()`) are modelled as `Int` seconds with
  hour boundaries at multiples of 3600; sub-second precision is irrelevant to
  every property considered here.  The two `datetime.now()` calls inside one
  loop iteration (`_process_queue` line 187 and `_send_message` line 260) are
  modelled as the same instant.
* Python floats are modelled as exact rationals (`ℚ`); `round(x, 2)` is
  modelled by `round2` (round half up at two decimals).  Every bound proved
  below is preserved by any monotone rounding that fixes multiples of `1/100`,
  so the float/rational and tie-breaking differences are immaterial.
* Python dicts are mutable objects shared by reference: the mutable queue
  items of the scheduler live in a `Store` (reference ↦ current dict value)
  and the two queues hold references, reproducing the aliasing of
  `message_item` between `_send_message` and `_process_queue`.
* `queue.PriorityQueue` is `heapq` over `(priority, item)` tuples guarded by a
  mutex; all traces are single-threaded, so the mutex is irrelevant.  The
  `heapq` push/pop algorithms (CPython `heapq.heappush`, `heapq.heappop`,
  `_siftdown`, `_siftup`) are embedded below over Python lists modelled as
  `List`.  Python tuple comparison `(p1, d1) < (p2, d2)` compares the
  priorities first and falls back to comparing the dicts, which raises
  `TypeError` unless the dicts are equal; fallible operations therefore
  return `Except PyErr`.
-/

set_option autoImplicit false

namespace Broadcast

/-- Python exception kinds observable in the embedded fragment. -/
inductive PyErr
  | typeError
  | attributeError
  | indexError
deriving DecidableEq, Repr

/-- One queue item of `MessageScheduler.add_message_to_queue` (the Python dict
`{'chat_id', 'message', 'priority', 'send_time', 'added_time', 'attempts'}`).
`send_time` is always populated (`send_time or datetime.now()`). -/
structure QueueItem where
  chat_id : Int
  message : String
  priority : Int
  send_time : Int
  added_time : Int
  attempts : Nat
deriving DecidableEq, Repr

instance : Inhabited QueueItem :=
  ⟨{ chat_id := 0, message := "", priority := 0, send_time := 0, added_time := 0, attempts := 0 }⟩

/-- A reference to a mutable Python dict. -/
abbrev Ref := Nat

/-- The object store: reference ↦ current value of the dict. -/
abbrev Store := List (Ref × QueueItem)

/-- Dereference (references allocated by the embedding are always present). -/
def getRef : Store → Ref → QueueItem
  | [], _ => default
  | (r', it) :: rest, r => if r = r' then it else getRef rest r

/-- In-place mutation of the dict behind a reference. -/
def setRef : Store → Ref → QueueItem → Store
  | [], _, _ => []
  | (r', it) :: rest, r, v => if r = r' then (r, v) :: rest else (r', it) :: setRef rest r v

/-- One entry of the underlying `heapq` list: the `(priority, item)` tuple. -/
abbrev Entry := Int × Ref

/-- Python list indexing with unreachable default (all indices used by the
`heapq` algorithms are in range). -/
def lget (l : List Entry) (i : Nat) : Entry :=
  l.getD i default

/-- Python list element assignment. -/
def lset (l : List Entry) (i : Nat) (e : Entry) : List Entry :=
  l.set i e

/-- Python `<` on two `(priority, dict)` tuples: compares the priorities and,
on a tie, the dicts — dict values are unordered, so unequal dicts raise
`TypeError`, while equal dicts make the tuples compare equal (`<` is false). -/
def entryLt (st : Store) (a b : Entry) : Except PyErr Bool :=
  if a.1 = b.1 then
    if getRef st a.2 = getRef st b.2 then .ok false
    else .error .typeError
  else .ok (decide (a.1 < b.1))

/-- CPython `heapq._siftdown(heap, startpos, pos)` with `newitem` the element
being sifted toward the root.  The loop moves `pos` to `(pos - 1) / 2`, which
strictly decreases while `startpos < pos`, so `fuel = pos` iterations always
suffice (structural recursion on the fuel keeps the definition computable by
the kernel); the fuel-exhausted branch is unreachable and mirrors the loop
exit. -/
def siftdownFuel (st : Store) :
    Nat → List Entry → Nat → Nat → Entry → Except PyErr (List Entry)
  | 0, heap, _, pos, newitem => .ok (lset heap pos newitem)
  | fuel + 1, heap, startpos, pos, newitem =>
    if startpos < pos then
      let parentpos := (pos - 1) / 2
      let parent := lget heap parentpos
      match entryLt st newitem parent with
      | .error e => .error e
      | .ok true => siftdownFuel st fuel (lset heap pos parent) startpos parentpos newitem
      | .ok false => .ok (lset heap pos newitem)
    else .ok (lset heap pos newitem)

def siftdown (st : Store) (heap : List Entry) (startpos pos : Nat) (newitem : Entry) :
    Except PyErr (List Entry) :=
  siftdownFuel st pos heap startpos pos newitem

/-- CPython `heapq.heappush(heap, item)`. -/
def heappush (st : Store) (heap : List Entry) (e : Entry) : Except PyErr (List Entry) :=
  let h := heap ++ [e]
  siftdown st h 0 (h.length - 1) e

/-- The child-chasing loop of CPython `heapq._siftup(heap, pos)`; returns the
heap after the chain of child promotions together with the final position.
`pos` strictly increases while `2 * pos + 1 < heap.length` (and `List.set`
preserves the length), so `fuel = heap.length` iterations always suffice; the
fuel-exhausted branch is unreachable and mirrors the loop exit. -/
def siftupLoopFuel (st : Store) : Nat → List Entry → Nat → Except PyErr (List Entry × Nat)
  | 0, heap, pos => .ok (heap, pos)
  | fuel + 1, heap, pos =>
    if 2 * pos + 1 < heap.length then
      if 2 * pos + 2 < heap.length then
        match entryLt st (lget heap (2 * pos + 1)) (lget heap (2 * pos + 2)) with
        | .error e => .error e
        | .ok true => siftupLoopFuel st fuel (lset heap pos (lget heap (2 * pos + 1))) (2 * pos + 1)
        | .ok false => siftupLoopFuel st fuel (lset heap pos (lget heap (2 * pos + 2))) (2 * pos + 2)
      else
        siftupLoopFuel st fuel (lset heap pos (lget heap (2 * pos + 1))) (2 * pos + 1)
    else .ok (heap, pos)

/-- CPython `heapq._siftup(heap, pos)`: promote children, then sift the
original `heap[pos]` back down toward `pos`. -/
def siftup (st : Store) (heap : List Entry) (pos : Nat) : Except PyErr (List Entry) :=
  match siftupLoopFuel st heap.length heap pos with
  | .error e => .error e
  | .ok (heap', finalpos) => siftdown st heap' pos finalpos (lget heap pos)

/-- CPython `heapq.heappop(heap)`. -/
def heappop (st : Store) (heap : List Entry) : Except PyErr (Entry × List Entry) :=
  match heap.getLast? with
  | none => .error .indexError
  | some lastelt =>
    let rest := heap.dropLast
    if rest.length = 0 then .ok (lastelt, rest)
    else
      let returnitem := lget rest 0
      match siftup st (lset rest 0 lastelt) 0 with
      | .error e => .error e
      | .ok heap' => .ok (returnitem, heap')

/-- One entry of `AntiBanSystem.message_history`
(`{'timestamp', 'chat_id', 'message_preview', 'hour'}`); timestamps written by
`record_message_sent` are always well-formed ISO strings, modelled as `Int`
seconds. -/
structure HistRecord where
  timestamp : Int
  chat_id : Int
  message_preview : String
  hour : Nat
deriving DecidableEq, Repr

instance : Inhabited HistRecord :=
  ⟨{ timestamp := 0, chat_id := 0, message_preview := "", hour := 0 }⟩

/-- The mutable state of `AntiBanSystem` used by the embedded methods:
`message_history`, `sent_messages_count` and the cadence-pattern cursor. -/
structure AntiBanState where
  message_history : List HistRecord
  sent_messages_count : Nat
  current_pattern : Nat
  position_in_pattern : Nat
deriving DecidableEq, Repr

/-- `config.Config.MAX_MESSAGES_PER_HOUR` (config.py line 25). -/
def hourly_limit : Nat := 30

/-- `self.daily_limit = 200`. -/
def daily_limit : Nat := 200

/-- `self.min_delay = 2.0`. -/
def min_delay : ℚ := 2

/-- `self.max_delay = 10.0`. -/
def max_delay : ℚ := 10

/-- `self.delay_patterns` (four fixed 3-value cadence patterns). -/
def delay_patterns : List (List ℚ) :=
  [[3.5, 4.5, 3.2], [4.0, 3.0, 5.0], [2.5, 3.5, 4.5], [3.0, 4.0, 3.5]]

/-- `AntiBanSystem.get_messages_last_hour`: records with
`record_time > now - 1 hour`. -/
def get_messages_last_hour (now : Int) (ab : AntiBanState) : Nat :=
  (ab.message_history.filter (fun r => decide (r.timestamp > now - 3600))).length

/-- `(next_hour - now).seconds // 60` where `next_hour` is `now + 1h` with
minute/second zeroed: the number of whole minutes until the top of the next
hour. -/
def minutes_until_next_hour (now : Int) : Int :=
  (3600 - now % 3600) / 60

/-- The denial reason built by `check_limits` when the hourly cap is hit; it
includes the number of minutes until the top of the next hour. -/
def hourly_denied_reason (now : Int) : String :=
  "⚠️ Достигнут часовой лимит. Ждите " ++ toString (minutes_until_next_hour now) ++ " мин."

/-- The count computed by the daily-limit scan of `check_limits`: records of
the last 200 history entries with `record_time > now - 1 day`. -/
def daily_count (now : Int) (ab : AntiBanState) : Nat :=
  ((ab.message_history.drop (ab.message_history.length - 200)).filter
    (fun r => decide (r.timestamp > now - 86400))).length

/-- `AntiBanSystem.check_limits` → `(можно_отправлять, причина)`. -/
def check_limits (now : Int) (ab : AntiBanState) : Bool × String :=
  if get_messages_last_hour now ab ≥ hourly_limit then
    (false, hourly_denied_reason now)
  else if ab.message_history.length > 100 then
    if daily_count now ab ≥ daily_limit then
      (false, "⚠️ Достигнут дневной лимит отправки")
    else (true, "✅ Можно отправлять")
  else (true, "✅ Можно отправлять")

/-- Python `round(x, 2)` modelled at rational precision, rounding half up. -/
def round2 (x : ℚ) : ℚ :=
  (⌊x * 100 + 1 / 2⌋ : ℚ) / 100

/-- The outcomes of the `random.uniform` draws `get_smart_delay` may make:
`high ~ uniform(8.0, 15.0)`, `mid ~ uniform(5.0, 10.0)`,
`jitter ~ uniform(-0.5, 0.5)`. -/
structure SmartDelayRand where
  high : ℚ
  mid : ℚ
  jitter : ℚ
deriving DecidableEq, Repr

/-- `AntiBanSystem.get_smart_delay`: adaptive base delay, clamp to
`[min_delay, max_delay]`, night factor `0.7` for local hour in `[0, 6)`,
round to two decimals.  Returns the delay and the mutated state (the cadence
cursor advances in the pattern branch).  The source's float comparisons
`messages_last_hour > hourly_limit * 0.8` and `> hourly_limit * 0.5` are
exact (`30 * 0.8` and `30 * 0.5` are exactly 24.0 and 15.0 as IEEE doubles),
so they are stated as the equivalent integer comparisons
`10 * mlh > 8 * hourly_limit` and `10 * mlh > 5 * hourly_limit`. -/
def get_smart_delay (rand : SmartDelayRand) (hour : Nat) (now : Int) (ab : AntiBanState) :
    ℚ × AntiBanState :=
  let mlh := get_messages_last_hour now ab
  let step :=
    if 10 * mlh > 8 * hourly_limit then (rand.high, ab)
    else if 10 * mlh > 5 * hourly_limit then (rand.mid, ab)
    else
      let pattern := delay_patterns.getD ab.current_pattern []
      let base := pattern.getD ab.position_in_pattern 0 + rand.jitter
      let pos' := ab.position_in_pattern + 1
      let ab' :=
        if pos' ≥ pattern.length then
          { ab with position_in_pattern := 0,
                    current_pattern := (ab.current_pattern + 1) % delay_patterns.length }
        else { ab with position_in_pattern := pos' }
      (base, ab')
  let delay := max min_delay (min step.1 max_delay)
  let delay := if hour < 6 then delay * (7 / 10) else delay
  (round2 delay, step.2)

/-- `AntiBanSystem.record_message_sent`: append a history record and bump the
running total (the every-10th-call `save_history` writes `save_payload` below
and does not change the in-memory state). -/
def record_message_sent (now : Int) (hour : Nat) (ab : AntiBanState) (chat_id : Int)
    (message : String) : AntiBanState :=
  let record : HistRecord :=
    { timestamp := now, chat_id := chat_id, message_preview := message.take 50, hour := hour }
  { ab with message_history := ab.message_history ++ [record],
            sent_messages_count := ab.sent_messages_count + 1 }

/-- The `'history'` list written to stable storage by
`AntiBanSystem.save_history`: `self.message_history[-1000:]`. -/
def save_payload (ab : AntiBanState) : List HistRecord :=
  ab.message_history.drop (ab.message_history.length - 1000)

/-- JSON values, for the persisted-state file read by `load_history`. -/
inductive PyJson
  | null
  | bool (b : Bool)
  | num (n : Int)
  | str (s : String)
  | arr (items : List PyJson)
  | obj (fields : List (String × PyJson))

/-- Python `dict.get(key, default)` on a JSON object. -/
def dictGet (fields : List (String × PyJson)) (key : String) (dflt : PyJson) : PyJson :=
  match fields.lookup key with
  | some v => v
  | none => dflt

/-- The possible states of the persisted history file. -/
inductive LoadInput
  | missingFile
  | invalidJson
  | json (v : PyJson)

/-- `AntiBanSystem.load_history`: returns the raw values assigned to
`self.message_history` and `self.sent_messages_count`.  The `try` block
catches only `FileNotFoundError` and `json.JSONDecodeError`; calling
`data.get(...)` on a decoded value that is not a JSON object raises an
uncaught `AttributeError`. -/
def load_history (input : LoadInput) : Except PyErr (PyJson × PyJson) :=
  match input with
  | .missingFile => .ok (.arr [], .num 0)
  | .invalidJson => .ok (.arr [], .num 0)
  | .json (.obj fields) => .ok (dictGet fields "history" (.arr []), dictGet fields "total" (.num 0))
  | .json _ => .error .attributeError

/-- The state of a `MessageScheduler` touched by the embedded methods: the
object store for queue-item dicts, the FIFO `message_queue` (front first), the
`priority_queue` heap list, the owned `AntiBanSystem`, and the two counters of
`self.stats` the claims are about.  `transport_calls` is observational
instrumentation counting the invocations of `client.send_message`; it is
written exactly where the source calls the transport and read nowhere. -/
structure SchedState where
  store : Store
  message_queue : List Ref
  prio_heap : List Entry
  antiban : AntiBanState
  total_sent : Nat
  total_failed : Nat
  transport_calls : Nat
deriving DecidableEq, Repr

/-- The empty freshly-constructed scheduler (empty queues, zero stats) with an
`AntiBanSystem` that loaded an empty history. -/
def emptyAntiBan : AntiBanState :=
  { message_history := [], sent_messages_count := 0, current_pattern := 0,
    position_in_pattern := 0 }

def emptySched : SchedState :=
  { store := [], message_queue := [], prio_heap := [], antiban := emptyAntiBan,
    total_sent := 0, total_failed := 0, transport_calls := 0 }

/-- `MessageScheduler.add_message_to_queue`: build the item dict (allocating a
fresh reference) and route it — deferred items (`send_time` given) go to the
priority queue keyed by `(priority, item)`, immediate items to the FIFO. -/
def add_message_to_queue (now : Int) (s : SchedState) (chat_id : Int) (message : String)
    (priority : Int) (send_time : Option Int) : Except PyErr SchedState :=
  let r : Ref := s.store.length
  let item : QueueItem :=
    { chat_id := chat_id, message := message, priority := priority,
      send_time := send_time.getD now, added_time := now, attempts := 0 }
  let store' := s.store ++ [(r, item)]
  match send_time with
  | some _ =>
    match heappush store' s.prio_heap (priority, r) with
    | .error e => .error e
    | .ok heap' => .ok { s with store := store', prio_heap := heap' }
  | none => .ok { s with store := store', message_queue := s.message_queue ++ [r] }

/-- `MessageScheduler._get_next_message`: pop the priority queue if nonempty
(no readiness check), else pop the FIFO, else `None`. -/
def get_next_message (s : SchedState) : Except PyErr (Option Ref × SchedState) :=
  if s.prio_heap.length ≠ 0 then
    match heappop s.store s.prio_heap with
    | .error e => .error e
    | .ok ((_, r), heap') => .ok (some r, { s with prio_heap := heap' })
  else
    match s.message_queue with
    | r :: rest => .ok (some r, { s with message_queue := rest })
    | [] => .ok (none, s)

/-- `MessageScheduler._send_message`: check the anti-ban limits — on denial
set the item's `send_time` to `now + 5min`, push `(1, item)` (high priority)
and return `False`; otherwise draw the smart delay (advancing the cadence
cursor), call the transport, and on success record the send in the history.
The surrounding `try/except` turns any exception into `False`; the only
fallible internal operation is the deferral push, whose in-place partial
mutation on error is not modelled (no verified trace reaches it). -/
def send_message (transport : Int → String → Bool) (rand : SmartDelayRand) (hour : Nat)
    (now : Int) (s : SchedState) (r : Ref) : Bool × SchedState :=
  let item := getRef s.store r
  let cl := check_limits now s.antiban
  if cl.1 = false then
    let store' := setRef s.store r { item with send_time := now + 300 }
    match heappush store' s.prio_heap (1, r) with
    | .error _ => (false, { s with store := store' })
    | .ok heap' => (false, { s with store := store', prio_heap := heap' })
  else
    let ab' := (get_smart_delay rand hour now s.antiban).2
    let ok := transport item.chat_id item.message
    let s' := { s with antiban := ab', transport_calls := s.transport_calls + 1 }
    if ok then
      (true, { s' with antiban := record_message_sent now hour s'.antiban item.chat_id item.message })
    else (false, s')

/-- The observable outcome of one `_process_queue` loop iteration. -/
inductive StepResult
  | idle
  | notDue
  | sent
  | failedRetry
  | failedDrop
deriving DecidableEq, Repr

/-- One iteration of the body of `MessageScheduler._process_queue` (lines
174–217): fetch the next item; if its `send_time` is in the future push it
back and sleep; otherwise attempt the send, and on failure either re-enqueue
with linear backoff `60 * attempts` at priority `+5` (while `attempts < 3`)
or drop the item.  The run/pause/max-message control flow around the body is
loop plumbing and is driven externally by the traces below. -/
def process_queue_step (transport : Int → String → Bool) (rand : SmartDelayRand) (hour : Nat)
    (now : Int) (s : SchedState) : Except PyErr (StepResult × SchedState) :=
  match get_next_message s with
  | .error e => .error e
  | .ok (none, s) => .ok (.idle, s)
  | .ok (some r, s) =>
    let item := getRef s.store r
    if item.send_time > now then
      match heappush s.store s.prio_heap (item.priority, r) with
      | .error e => .error e
      | .ok heap' => .ok (.notDue, { s with prio_heap := heap' })
    else
      let res := send_message transport rand hour now s r
      let s := res.2
      if res.1 then
        .ok (.sent, { s with total_sent := s.total_sent + 1 })
      else
        let s := { s with total_failed := s.total_failed + 1 }
        let item := getRef s.store r
        if item.attempts < 3 then
          let item' := { item with attempts := item.attempts + 1,
                                   send_time := now + 60 * (item.attempts + 1) }
          let store' := setRef s.store r item'
          match heappush store' s.prio_heap (item.priority + 5, r) with
          | .error e => .error e
          | .ok heap' => .ok (.failedRetry, { s with store := store', prio_heap := heap' })
        else .ok (.failedDrop, s)

/-- `self.message_templates` (5 fixed templates). -/
def message_templates : List String :=
  ["Привет! {name}, у нас для тебя важная информация!",
   "Внимание, {name}! Специальное предложение только для тебя!",
   "{name}, не пропусти новости нашей группы!",
   "Дорогой {name}, у нас для тебя есть кое-что интересное!",
   "Приветствуем, {name}! Загляни к нам, будет интересно!"]

/-- The 8 fixed emojis of `generate_personalized_message`. -/
def emojis : List String :=
  ["😊", "🎉", "🚀", "⭐", "💫", "🔥", "👋", "📢"]

/-- The chat directory `self.chat_manager.chats`: chat id ↦ chat-info dict
(string-valued fields such as `'title'`). -/
abbrev ChatDir := List (Int × List (String × String))

/-- `MessageScheduler.generate_personalized_message`.  The two
`random.choice` calls are modelled by their chosen indices `tIdx` (template)
and `eIdx` (emoji). -/
def generate_personalized_message (chats : ChatDir) (tIdx eIdx : Nat) (chat_id : Int) : String :=
  let chat_info := (chats.lookup chat_id).getD []
  let chat_name := (chat_info.lookup "title").getD "друг"
  let template := message_templates.getD tIdx ""
  let message := template.replace "{name}" chat_name
  message ++ " " ++ emojis.getD eIdx ""

/-- A stub transport whose `attempt_delivery` always fails. -/
def alwaysFail : Int → String → Bool := fun _ _ => false

/-- A fixed outcome for the random draws (their values never influence the
queueing, retry or stats behaviour, only the discarded pacing delay). -/
def rand0 : SmartDelayRand := { high := 8, mid := 5, jitter := 0 }

/-- Run one `_process_queue` iteration at instant `now` on the state produced
by a previous fallible step (always-failing transport, local hour 12). -/
def stepAt (now : Int) (e : Except PyErr SchedState) : Except PyErr (StepResult × SchedState) :=
  match e with
  | .error er => .error er
  | .ok s => process_queue_step alwaysFail rand0 12 now s

/-- Forget the step outcome, keeping the state. -/
def dropResult (e : Except PyErr (StepResult × SchedState)) : Except PyErr SchedState :=
  e.map (fun p => p.2)

/-- The priority-queue contents as `(entry priority, item send_time, item
attempts)` triples, dereferenced through the store. -/
def heapView (s : SchedState) : List (Int × Int × Nat) :=
  s.prio_heap.map (fun e => (e.1, (getRef s.store e.2).send_time, (getRef s.store e.2).attempts))

/-- The full observation of a step: outcome, FIFO contents, priority-queue
view, `total_failed`, `total_sent`, transport invocations. -/
structure StepObs where
  result : StepResult
  fifo : List Ref
  heap : List (Int × Int × Nat)
  failed : Nat
  sent : Nat
  calls : Nat
deriving DecidableEq, Repr

def stepView (e : Except PyErr (StepResult × SchedState)) : Option StepObs :=
  match e with
  | .ok (res, s) =>
    some ⟨res, s.message_queue, heapView s, s.total_failed, s.total_sent, s.transport_calls⟩
  | .error _ => none

instance {ε α : Type} [DecidableEq ε] [DecidableEq α] : DecidableEq (Except ε α) := fun a b =>
  match a, b with
  | .error e, .error e' =>
    if h : e = e' then .isTrue (by rw [h]) else .isFalse (by simp [h])
  | .ok v, .ok v' =>
    if h : v = v' then .isTrue (by rw [h]) else .isFalse (by simp [h])
  | .error _, .ok _ => .isFalse (by simp)
  | .ok _, .error _ => .isFalse (by simp)

/-- Scenario B of the specification: one immediate job (enqueued at instant
0) processed with the always-failing transport; the four loop iterations at
the instants where the job is due. -/
def scenarioB0 : Except PyErr SchedState :=
  add_message_to_queue 0 emptySched 42 "hello" 5 none

def scenarioB1 : Except PyErr (StepResult × SchedState) := stepAt 0 scenarioB0

def scenarioB2 : Except PyErr (StepResult × SchedState) := stepAt 60 (dropResult scenarioB1)

def scenarioB3 : Except PyErr (StepResult × SchedState) := stepAt 180 (dropResult scenarioB2)

def scenarioB4 : Except PyErr (StepResult × SchedState) := stepAt 360 (dropResult scenarioB3)

/-- A history that saturates the hourly cap at instant 3600: thirty records
10 seconds old. -/
def denyAB : AntiBanState :=
  { message_history :=
      List.replicate 30 { timestamp := 3590, chat_id := 1, message_preview := "x", hour := 0 },
    sent_messages_count := 30, current_pattern := 0, position_in_pattern := 0 }

/-- One immediate job processed while `check_limits` denies. -/
def denyScenario : Except PyErr (StepResult × SchedState) :=
  stepAt 3600 (add_message_to_queue 3600 { emptySched with antiban := denyAB } 42 "hello" 5 none)

/-- The references held by the priority queue after a step. -/
def heapRefs (e : Except PyErr (StepResult × SchedState)) : Option (List Ref) :=
  match e with
  | .ok (_, s) => some (s.prio_heap.map (fun en => en.2))
  | .error _ => none

/-- Two deferred jobs with equal priority 5 and scheduled times 100 < 200. -/
def tieScenario : Except PyErr SchedState :=
  match add_message_to_queue 0 emptySched 1 "a" 5 (some 100) with
  | .error e => .error e
  | .ok s => add_message_to_queue 0 s 2 "b" 5 (some 200)

/-- An immediate FIFO job coexisting with a not-yet-due deferred job
(scheduled time 1000), one loop iteration at instant 0. -/
def starveScenario : Except PyErr (StepResult × SchedState) :=
  match add_message_to_queue 0 emptySched 7 "immediate" 5 none with
  | .error e => .error e
  | .ok s0 =>
    match add_message_to_queue 0 s0 8 "later" 3 (some 1000) with
    | .error e => .error e
    | .ok s1 => process_queue_step alwaysFail rand0 12 0 s1

/-- The state reached by `starveScenario` just before its processing step:
an immediate job (ref 0) in the FIFO and a deferred not-yet-due job (ref 1)
in the priority queue. -/
def starveS : SchedState :=
  { store := [(0, { chat_id := 7, message := "immediate", priority := 5, send_time := 0,
                    added_time := 0, attempts := 0 }),
              (1, { chat_id := 8, message := "later", priority := 3, send_time := 1000,
                    added_time := 0, attempts := 0 })],
    message_queue := [0], prio_heap := [(3, 1)], antiban := emptyAntiBan,
    total_sent := 0, total_failed := 0, transport_calls := 0 }

/-- A scheduler state whose deferred queue is empty and whose FIFO holds one
reference. -/
def fifoS : SchedState :=
  { emptySched with message_queue := [0] }

/-- A state with 1000 retained history records. -/
def fullAB : AntiBanState :=
  { message_history :=
      List.replicate 1000 { timestamp := 0, chat_id := 1, message_preview := "x", hour := 0 },
    sent_messages_count := 1000, current_pattern := 0, position_in_pattern := 0 }

/-- C1 counterexample: processing one job with the always-failing transport
does not stop at 3 delivery attempts — the fourth iteration still invokes the
transport (`calls = 4`) and `total_failed` ends at 4, not 3 as claimed (the
cutoff `if message_item['attempts'] < 3` is checked before the increment, so
the initial attempt plus 3 retries are all delivered). -/
theorem scenarioB_not_three_attempts :
    stepView scenarioB4 = some ⟨.failedDrop, [], [], 4, 0, 4⟩ := by
  decide

/-- C1 (amended): with an always-failing transport the scheduler attempts
delivery exactly 4 times; each of the first 3 failures re-enqueues the job at
priority `+5` with backoff `60 * attempt_count` seconds (60 s, 120 s, 180 s —
send times 60, 180, 360), after which the job is dropped as a terminal
failure with `total_failed = 4` and `total_sent = 0` and both queues empty. -/
theorem scenarioB_retry_schedule :
    stepView scenarioB1 = some ⟨.failedRetry, [], [(10, 60, 1)], 1, 0, 1⟩ ∧
    stepView scenarioB2 = some ⟨.failedRetry, [], [(10, 180, 2)], 2, 0, 2⟩ ∧
    stepView scenarioB3 = some ⟨.failedRetry, [], [(10, 360, 3)], 3, 0, 3⟩ ∧
    stepView scenarioB4 = some ⟨.failedDrop, [], [], 4, 0, 4⟩ := by
  decide

/-- C2 counterexample: a job whose send is gated off by `check_limits` is
counted in `total_failed` (1, not 0), its `attempt_count` is incremented to
1, and its final scheduled time is `now + 60` (the retry backoff overwrites
the `now + 5min = 3900` deferral on the shared dict), contradicting the
claim at this concrete input (`now = 3600`, hourly cap saturated). -/
theorem denied_job_counted_failed :
    stepView denyScenario = some ⟨.failedRetry, [], [(1, 3660, 1), (10, 3660, 1)], 1, 0, 0⟩ := by
  decide

/-- C3 (code bug): processing a job while the rate limiter denies pushes the
same job dict into the priority queue twice — once at priority 1 inside
`_send_message` and once at priority `+5` by the retry path of
`_process_queue` — so the queues hold two references to one job,
violating the single-queue ownership invariant. -/
theorem denied_job_double_enqueued :
    heapRefs denyScenario = some [0, 0] := by
  decide

/-- C4 (code bug): enqueueing two deferred jobs with equal priority 5 and
scheduled times 100 < 200 raises `TypeError`: the heap key is the bare
`priority` (no scheduled-time component), so the tie falls back to comparing
the two job dicts, which Python cannot order.  The claimed
`(priority, scheduled_time)` ordering is not implemented. -/
theorem equal_priority_deferred_put_type_error :
    tieScenario = .error .typeError := by
  decide

/-- C5 counterexample: with a not-yet-due deferred job (scheduled time 1000)
and an immediate FIFO job both queued, the loop iteration at instant 0 pops
the deferred job, reinserts it and sleeps: the FIFO job is not returned in
that invocation (no fall-through), contradicting the claim. -/
theorem fifo_starved_by_not_due_deferred :
    stepView starveScenario = some ⟨.notDue, [0], [(3, 1000, 0)], 0, 0, 0⟩ := by
  decide

set_option maxRecDepth 100000 in
/-- C8 counterexample: `record_message_sent` on a state already holding 1000
history records retains 1001 records in memory, strictly more than the 1000
of the claimed bounded ring. -/
theorem in_memory_history_unbounded :
    (record_message_sent 0 0 fullAB 1 "hi").message_history.length = 1001 ∧
    1000 < (record_message_sent 0 0 fullAB 1 "hi").message_history.length := by
  decide

set_option maxRecDepth 100000 in
/-- C8 (amended): the history written to stable storage by `save_history` is
always a suffix of the in-memory history of at most the most recent 1000
records; the in-memory history itself is unbounded (append-only, never
truncated). -/
theorem saved_history_bounded (ab : AntiBanState) :
    (save_payload ab).length ≤ 1000 ∧
    save_payload ab = ab.message_history.drop (ab.message_history.length - 1000) ∧
    (record_message_sent 0 0 fullAB 1 "hi").message_history.length = 1001 := by
  refine ⟨?_, rfl, by decide⟩
  simp only [save_payload, List.length_drop]
  omega

/-- C9 counterexample: a persisted-state file holding the valid JSON text
`[]` (an array, not an object) makes `load_history` raise an uncaught
`AttributeError` — loading does not succeed on corrupt content of every
shape. -/
theorem load_history_raises_on_json_array :
    load_history (.json (.arr [])) = .error .attributeError := by
  rfl

/-- C9 (amended): a missing file or a file that is not valid JSON loads as
empty history with zero total; a valid JSON object loads its `history` and
`total` fields (with empty/zero defaults); but valid JSON whose top level is
not an object (array, string, number, boolean or null) raises an uncaught
`AttributeError`. -/
theorem load_history_behaviour :
    load_history .missingFile = .ok (.arr [], .num 0) ∧
    load_history .invalidJson = .ok (.arr [], .num 0) ∧
    (∀ fields, load_history (.json (.obj fields))
      = .ok (dictGet fields "history" (.arr []), dictGet fields "total" (.num 0))) ∧
    (∀ l, load_history (.json (.arr l)) = .error .attributeError) ∧
    (∀ s, load_history (.json (.str s)) = .error .attributeError) ∧
    (∀ n, load_history (.json (.num n)) = .error .attributeError) ∧
    (∀ b, load_history (.json (.bool b)) = .error .attributeError) ∧
    load_history (.json .null) = .error .attributeError := by
  refine ⟨rfl, rfl, fun _ => rfl, fun _ => rfl, fun _ => rfl, fun _ => rfl, fun _ => rfl, rfl⟩

/-- C6: whenever at least `hourly_limit = 30` history records have timestamps
inside the last hour, `check_limits` is Denied with the reason naming the
minutes until the top of the next hour (`hourly_denied_reason`); with fewer
such records and the daily count below `daily_limit = 200`, it is Allowed. -/
theorem check_limits_hourly_cap (now : Int) (ab : AntiBanState) :
    (get_messages_last_hour now ab ≥ hourly_limit →
      check_limits now ab = (false, hourly_denied_reason now)) ∧
    (get_messages_last_hour now ab < hourly_limit → daily_count now ab < daily_limit →
      check_limits now ab = (true, "✅ Можно отправлять")) := by
  constructor
  · intro h
    unfold check_limits
    rw [if_pos h]
  · intro h1 h2
    have h1' : ¬ (get_messages_last_hour now ab ≥ hourly_limit) := by omega
    have h2' : ¬ (daily_count now ab ≥ daily_limit) := by omega
    unfold check_limits
    rw [if_neg h1']
    by_cases hl : ab.message_history.length > 100
    · rw [if_pos hl, if_neg h2']
    · rw [if_neg hl]

/-- Concrete instantiation of `check_limits_hourly_cap`: a saturated hour is
denied, an empty history is allowed. -/
theorem check_limits_hourly_cap_witness :
    check_limits 3600 denyAB = (false, hourly_denied_reason 3600) ∧
    check_limits 0 emptyAntiBan = (true, "✅ Можно отправлять") :=
  ⟨(check_limits_hourly_cap 3600 denyAB).1 (by decide),
   (check_limits_hourly_cap 0 emptyAntiBan).2 (by decide) (by decide)⟩

theorem round2_mono {x y : ℚ} (h : x ≤ y) : round2 x ≤ round2 y := by
  unfold round2
  have hf : ⌊x * 100 + 1 / 2⌋ ≤ ⌊y * 100 + 1 / 2⌋ := Int.floor_le_floor (by linarith)
  have hc : ((⌊x * 100 + 1 / 2⌋ : ℤ) : ℚ) ≤ ((⌊y * 100 + 1 / 2⌋ : ℤ) : ℚ) := by
    exact_mod_cast hf
  linarith

theorem round2_of_mul_hundred (c : ℚ) (n : ℤ) (hc : c * 100 = (n : ℚ)) : round2 c = c := by
  unfold round2
  have hfl : ⌊c * 100 + 1 / 2⌋ = n := by
    rw [hc, Int.floor_eq_iff]
    constructor
    · linarith
    · linarith
  rw [hfl]
  field_simp at hc ⊢
  linarith

theorem round2_sevenFifths : round2 (7 / 5) = 7 / 5 :=
  round2_of_mul_hundred (7 / 5) 140 (by norm_num)

theorem round2_two : round2 2 = 2 :=
  round2_of_mul_hundred 2 200 (by norm_num)

theorem round2_seven : round2 7 = 7 :=
  round2_of_mul_hundred 7 700 (by norm_num)

theorem round2_ten : round2 10 = 10 :=
  round2_of_mul_hundred 10 1000 (by norm_num)

theorem clamp_bounds (b : ℚ) :
    2 ≤ max min_delay (min b max_delay) ∧ max min_delay (min b max_delay) ≤ 10 := by
  unfold min_delay max_delay
  exact ⟨le_max_left 2 (min b 10), max_le (by norm_num) (min_le_right b 10)⟩

theorem round2_clamped_bounds (b : ℚ) (hour : Nat) :
    7 / 5 ≤ round2 (if hour < 6 then max min_delay (min b max_delay) * (7 / 10)
                    else max min_delay (min b max_delay)) ∧
    round2 (if hour < 6 then max min_delay (min b max_delay) * (7 / 10)
            else max min_delay (min b max_delay)) ≤ 10 := by
  obtain ⟨h2, h10⟩ := clamp_bounds b
  by_cases hn : hour < 6
  · simp only [if_pos hn]
    constructor
    · calc (7 / 5 : ℚ) = round2 (7 / 5) := round2_sevenFifths.symm
        _ ≤ round2 (max min_delay (min b max_delay) * (7 / 10)) := round2_mono (by linarith)
    · calc round2 (max min_delay (min b max_delay) * (7 / 10)) ≤ round2 7 :=
          round2_mono (by linarith)
        _ = 7 := round2_seven
        _ ≤ 10 := by norm_num
  · simp only [if_neg hn]
    constructor
    · calc (7 / 5 : ℚ) ≤ 2 := by norm_num
        _ = round2 2 := round2_two.symm
        _ ≤ round2 (max min_delay (min b max_delay)) := round2_mono h2
    · calc round2 (max min_delay (min b max_delay)) ≤ round2 10 := round2_mono h10
        _ = 10 := round2_ten

/-- C7: every smart delay lies in `[2.0 * 0.7, 10.0] = [1.4, 10]`, whatever
the history, the random draws and the local hour: the base delay is clamped
to `[min_delay, max_delay] = [2, 10]` and the clamped value is multiplied by
`0.7` exactly when the local hour is in `[0, 6)`.  The two cursor hypotheses
state the invariant maintained by the source (the pattern indices are always
in range). -/
theorem get_smart_delay_bounds (rand : SmartDelayRand) (hour : Nat) (now : Int)
    (ab : AntiBanState) (hc : ab.current_pattern < delay_patterns.length)
    (hp : ab.position_in_pattern < (delay_patterns.getD ab.current_pattern []).length) :
    7 / 5 ≤ (get_smart_delay rand hour now ab).1 ∧
    (get_smart_delay rand hour now ab).1 ≤ 10 ∧
    ∃ b : ℚ, 2 ≤ b ∧ b ≤ 10 ∧
      (get_smart_delay rand hour now ab).1 = round2 (if hour < 6 then b * (7 / 10) else b) := by
  obtain ⟨base, hbase⟩ : ∃ base : ℚ,
      (get_smart_delay rand hour now ab).1
        = round2 (if hour < 6 then max min_delay (min base max_delay) * (7 / 10)
                  else max min_delay (min base max_delay)) := ⟨_, rfl⟩
  obtain ⟨hlo, hhi⟩ := round2_clamped_bounds base hour
  rw [hbase]
  exact ⟨hlo, hhi, max min_delay (min base max_delay), (clamp_bounds base).1,
    (clamp_bounds base).2, rfl⟩

/-- Concrete instantiation of `get_smart_delay_bounds` (night hour 3, empty
history, cursor at the origin). -/
theorem get_smart_delay_bounds_witness :
    7 / 5 ≤ (get_smart_delay rand0 3 0 emptyAntiBan).1 ∧
    (get_smart_delay rand0 3 0 emptyAntiBan).1 ≤ 10 ∧
    ∃ b : ℚ, 2 ≤ b ∧ b ≤ 10 ∧
      (get_smart_delay rand0 3 0 emptyAntiBan).1 = round2 (if 3 < 6 then b * (7 / 10) else b) :=
  get_smart_delay_bounds rand0 3 0 emptyAntiBan (by decide) (by decide)

theorem getD_mem {α : Type} [Inhabited α] :
    ∀ (l : List α) (n : Nat) (d : α), n < l.length → l.getD n d ∈ l
  | [], _, _, h => absurd h (by simp)
  | a :: t, 0, _, _ => List.mem_cons_self a t
  | a :: t, n + 1, d, h =>
    List.mem_cons_of_mem a (getD_mem t n d (by simpa using h))

/-- C10: generating a personalized message always succeeds; a destination
unknown to the chat directory resolves to the fallback display name "друг",
the message is one of the 5 fixed templates instantiated with that name, and
a space plus one of the 8 fixed emojis is appended. -/
theorem generate_personalized_message_spec (chats : ChatDir) (chat_id : Int) (tIdx eIdx : Nat)
    (hun : chats.lookup chat_id = none) (ht : tIdx < message_templates.length)
    (he : eIdx < emojis.length) :
    message_templates.length = 5 ∧ emojis.length = 8 ∧
    ∃ t ∈ message_templates, ∃ em ∈ emojis,
      generate_personalized_message chats tIdx eIdx chat_id
        = t.replace "{name}" "друг" ++ " " ++ em := by
  refine ⟨rfl, rfl, message_templates.getD tIdx "", getD_mem _ _ _ ht,
    emojis.getD eIdx "", getD_mem _ _ _ he, ?_⟩
  unfold generate_personalized_message
  rw [hun]
  rfl

/-- Concrete instantiation of `generate_personalized_message_spec`: an empty
directory and the unknown destination 999. -/
theorem generate_personalized_message_spec_witness :
    message_templates.length = 5 ∧ emojis.length = 8 ∧
    ∃ t ∈ message_templates, ∃ em ∈ emojis,
      generate_personalized_message [] 0 0 999 = t.replace "{name}" "друг" ++ " " ++ em :=
  generate_personalized_message_spec [] 999 0 0 rfl (by decide) (by decide)

/-- C5 (amended): `_get_next_message` prefers the deferred queue
unconditionally — its minimum is popped even when not yet due, in which case
the processing loop reinserts it (re-keyed by the item's own `priority`
field) and finishes the iteration without consulting the FIFO; the FIFO is
popped only when the deferred queue is empty, and no job is yielded only
when both queues are empty. -/
theorem get_next_message_behaviour (s : SchedState) (p : Int) (r : Ref) (now : Int)
    (tr : Int → String → Bool) (rand : SmartDelayRand) (hour : Nat)
    (hheap : s.prio_heap = [(p, r)]) (hdue : (getRef s.store r).send_time > now) :
    process_queue_step tr rand hour now s
      = .ok (.notDue, { s with prio_heap := [((getRef s.store r).priority, r)] }) ∧
    (∀ (s' : SchedState) (x : Ref) (xs : List Ref), s'.prio_heap = [] →
      s'.message_queue = x :: xs →
      get_next_message s' = .ok (some x, { s' with message_queue := xs })) ∧
    (∀ s' : SchedState, s'.prio_heap = [] → s'.message_queue = [] →
      get_next_message s' = .ok (none, s')) := by
  refine ⟨?_, ?_, ?_⟩
  · have hg : get_next_message s = .ok (some r, { s with prio_heap := [] }) := by
      unfold get_next_message
      rw [hheap]
      rfl
    simp only [process_queue_step, hg, hdue, if_true, heappush, siftdown, siftdownFuel, lset,
      List.nil_append, List.length_cons, List.length_nil, List.set]
  · intro s' x xs hh hq
    unfold get_next_message
    rw [hh, hq]
    rfl
  · intro s' hh hq
    unfold get_next_message
    rw [hh, hq]
    rfl

/-- Concrete instantiation of `get_next_message_behaviour`: the starvation
state, a FIFO-only state, and the empty scheduler. -/
theorem get_next_message_behaviour_witness :
    process_queue_step alwaysFail rand0 12 0 starveS
      = .ok (.notDue, { starveS with prio_heap := [(3, 1)] }) ∧
    get_next_message fifoS = .ok (some 0, { fifoS with message_queue := [] }) ∧
    get_next_message emptySched = .ok (none, emptySched) :=
  ⟨(get_next_message_behaviour starveS 3 1 0 alwaysFail rand0 12 rfl (by decide)).1,
   (get_next_message_behaviour starveS 3 1 0 alwaysFail rand0 12 rfl
      (by decide)).2.1 fifoS 0 [] rfl rfl,
   (get_next_message_behaviour starveS 3 1 0 alwaysFail rand0 12 rfl
      (by decide)).2.2 emptySched rfl rfl⟩

/-- C2 (amended): a job whose send attempt is gated off by `check_limits` is
re-enqueued inside `_send_message` at elevated priority 1 with
`scheduled_time = now + 5min`, but `_send_message` then returns `False`, so
the processing loop additionally counts the denial in `total_failed`,
increments the job's `attempt_count`, overwrites the shared dict's scheduled
time with the retry backoff `now + 60`, and pushes a second reference to the
same job at priority `priority + 5`; the job is not dropped, and no
transport call or history record is made. -/
theorem denied_job_requeue_behaviour (now : Int) (ab : AntiBanState) (cid : Int) (msg : String)
    (prio : Int) (hprio : 0 ≤ prio) (hdeny : (check_limits now ab).1 = false) :
    stepAt now (add_message_to_queue now { emptySched with antiban := ab } cid msg prio none)
      = .ok (.failedRetry,
        { store := [(0, { chat_id := cid, message := msg, priority := prio,
                          send_time := now + 60, added_time := now, attempts := 1 })],
          message_queue := [], prio_heap := [(1, 0), (prio + 5, 0)], antiban := ab,
          total_sent := 0, total_failed := 1, transport_calls := 0 }) := by
  have hne : (prio + 5 : Int) ≠ 1 := by omega
  have hlt : ¬ ((prio + 5 : Int) < 1) := by omega
  simp [stepAt, add_message_to_queue, emptySched, emptyAntiBan, process_queue_step,
    get_next_message, send_message, hdeny, heappush, siftdown, siftdownFuel, entryLt,
    lget, lset, setRef, getRef, hne, hlt]

/-- Concrete instantiation of `denied_job_requeue_behaviour` at the
saturated-hour state. -/
theorem denied_job_requeue_behaviour_witness :
    stepAt 3600 (add_message_to_queue 3600 { emptySched with antiban := denyAB } 42 "hello" 5 none)
      = .ok (.failedRetry,
        { store := [(0, { chat_id := 42, message := "hello", priority := 5,
                          send_time := 3660, added_time := 3600, attempts := 1 })],
          message_queue := [], prio_heap := [(1, 0), (10, 0)], antiban := denyAB,
          total_sent := 0, total_failed := 1, transport_calls := 0 }) :=
  denied_job_requeue_behaviour 3600 denyAB 42 "hello" 5 (by decide) (by decide)

end Broadcast

